import Mathlib

/-
Verification development for the stocks dashboard repository.

The source program (stocks.py) fetches daily OHLCV price history per ticker
symbol through a file cache (`create_df`), augments the series with technical
indicator columns (`add_indicator`), reads the symbol list from a flat file
(`get_stocks`), and renders charts (`plot`), including a conditional
bullish/bearish Ichimoku cloud segment classification.

Shallow embedding choices:
- A pandas DataFrame is modelled as an association list of named columns;
  a cell is `Option ℚ` (`none` models a missing value / NaN, `some q` a float).
- Python float arithmetic is modelled over ℚ.
- `df[name] = col` (in-place column assignment) is `setCol`: it replaces an
  existing column in place or appends a new one at the end, exactly as pandas.
- `indicators.split(',')` is `splitComma` (Python str.split semantics on a
  single-character separator).
- External collaborators that are not code of this repository (the ta
  indicator library, pandas serialization, yfinance, the filesystem clock)
  are modelled explicitly where a claim depends on them (RSI, JSON rounding)
  and kept as opaque function parameters otherwise (`TaFuns`).
-/

/-- A column of cells: `none` models a pandas missing value (NaN). -/
abbrev Column := List (Option ℚ)

/-- A DataFrame: ordered association list of named columns. -/
abbrev StockDF := List (String × Column)

/-- Reading a column `df[name]`; an absent column reads as empty (no claim
exercises the missing-column error path). -/
def getCol : StockDF → String → Column
  | [], _ => []
  | p :: ps, name => if p.1 = name then p.2 else getCol ps name

/-- Writing a column `df[name] = col`: pandas replaces an existing column in
place (keeping its position) or appends a new column at the end. -/
def setCol : StockDF → String → Column → StockDF
  | [], name, col => [(name, col)]
  | p :: ps, name, col =>
    if p.1 = name then (name, col) :: ps else p :: setCol ps name col

/-- Python `str.upper()` (ASCII case mapping suffices for ticker symbols). -/
def pyUpper (s : String) : String := String.mk (s.data.map Char.toUpper)

/-- Python `str.rstrip()`: drop trailing whitespace characters. -/
def pyRstrip (s : String) : String :=
  String.mk ((s.data.reverse.dropWhile Char.isWhitespace).reverse)

/-- Helper for `splitComma`: accumulates the current field (reversed). -/
def splitCommaAux : List Char → List Char → List String
  | [], acc => [String.mk acc.reverse]
  | c :: cs, acc =>
    if c = ',' then String.mk acc.reverse :: splitCommaAux cs []
    else splitCommaAux cs (c :: acc)

/-- Python `s.split(',')`: split on every comma; empty fields are kept and
the empty string splits to `[""]`. -/
def splitComma (s : String) : List String := splitCommaAux s.data []

/-- Embeds `get_stocks` (stocks.py line 55): the file is given as its list of
lines; the loop appends `line.rstrip().upper()` for every line. -/
def get_stocks (fileLines : List String) : List String :=
  fileLines.foldl (fun list1 line => list1 ++ [pyUpper (pyRstrip line)]) []

/-- The trailing window of width `w` ending at row `i`
(rows `max (0, i+1-w)` through `i`; ℕ subtraction realizes the `max`). -/
def windowAt (w i : ℕ) (xs : Column) : Column :=
  (xs.take (i + 1)).drop (i + 1 - w)

/-- One cell of `close.rolling(window=w, min_periods=0).mean()`: the mean of
the defined values in the trailing window; NaN when no value is present. -/
def rollingMeanAt (w i : ℕ) (xs : Column) : Option ℚ :=
  if ((windowAt w i xs).filterMap id).length = 0 then none
  else some (((windowAt w i xs).filterMap id).sum
    / (((windowAt w i xs).filterMap id).length : ℚ))

/-- Embeds `df['Close'].rolling(window=w, min_periods=0).mean()`
(stocks.py lines 94, 96, 98). -/
def rollingMean (w : ℕ) (xs : Column) : Column :=
  (List.range xs.length).map (fun i => rollingMeanAt w i xs)

/-- Models pandas `close.diff(1)`: first cell NaN, then successive
differences; a difference with a missing operand is missing. -/
def diffs (c : Column) : Column :=
  match c with
  | [] => []
  | _ :: rest =>
    none :: List.zipWith
      (fun cur prev => cur.bind (fun x => prev.map (fun y => x - y))) rest c

/-- Models `diff.where(diff > 0, 0.0)`: NaN compares false, so missing and
non-positive differences become 0. -/
def clipUp : Option ℚ → ℚ
  | some d => if 0 < d then d else 0
  | none => 0

/-- Models `-diff.where(diff < 0, 0.0)`. -/
def clipDown : Option ℚ → ℚ
  | some d => if d < 0 then -d else 0
  | none => 0

/-- Recursive core of `ewm(alpha=a, adjust=False).mean()`:
`y_i = (1-a) * y_(i-1) + a * x_i`. -/
def ewmFrom (a acc : ℚ) : List ℚ → List ℚ
  | [] => []
  | x :: xs => ((1 - a) * acc + a * x) :: ewmFrom a ((1 - a) * acc + a * x) xs

/-- Models `series.ewm(alpha=a, adjust=False).mean()` on a series without
missing values: `y_0 = x_0`, then the `ewmFrom` recursion. -/
def ewmAdjFalse (a : ℚ) : List ℚ → List ℚ
  | [] => []
  | x :: xs => x :: ewmFrom a x xs

/-- Models `min_periods=k+1` masking of an ewm output whose input has no
missing values: the first `k` cells are NaN. -/
def maskN : ℕ → List ℚ → Column
  | _, [] => []
  | 0, x :: xs => some x :: maskN 0 xs
  | k + 1, _ :: xs => none :: maskN k xs

/-- Models the ta library RSI cell: `np.where(emadn == 0, 100,
100 - 100 / (1 + emaup / emadn))` (IEEE: an infinite relative strength also
yields 100). -/
def rsiVal (up dn : ℚ) : ℚ :=
  if dn = 0 then 100 else 100 - 100 / (1 + up / dn)

/-- Models the external `ta.momentum.rsi(close, window=w)` called at
stocks.py line 102: Wilder RSI via `ewm(alpha=1/w, min_periods=w,
adjust=False)` means of the clipped one-day differences. -/
def rsiCol (w : ℕ) (c : Column) : Column :=
  maskN (w - 1)
    (List.zipWith rsiVal
      (ewmAdjFalse (1 / (w : ℚ)) ((diffs c).map clipUp))
      (ewmAdjFalse (1 / (w : ℚ)) ((diffs c).map clipDown)))

/-- Embeds `df['Close'].shift(-26)` (stocks.py line 114): cell `i` becomes
cell `i + k`; cells that would reference past the end are NaN. -/
def shiftNeg (k : ℕ) (xs : Column) : Column :=
  (List.range xs.length).map
    (fun i => if i + k < xs.length then xs.getD (i + k) none else none)

/-- The external ta-library indicator computations whose values no claim
depends on, kept as opaque collaborator functions: `ta.trend.macd_diff`,
`ta.volatility.BollingerBands` and `ta.trend.IchimokuIndicator`. -/
structure TaFuns where
  macd_diff : Column → Column
  bb_upper : Column → Column
  bb_lower : Column → Column
  bb_middle : Column → Column
  ich_conv : Column → Column → Column
  ich_base : Column → Column → Column
  ich_a : Column → Column → Column
  ich_b : Column → Column → Column

/-- Embeds one step of the `add_indicator` if/elif chain (stocks.py lines
93-114). The BollingerBands and Ichimoku constructors snapshot
`df['Close']` / `df['High']` / `df['Low']` before the assignments; none of
the assignments in a branch touches those source columns, so reading them
from the incoming frame is the source behavior. An unrecognized name falls
through to the final `else` and leaves the frame unchanged. -/
def apply_indicator (F : TaFuns) (df : StockDF) (ind : String) : StockDF :=
  if ind = "MA50" then setCol df "MA50" (rollingMean 50 (getCol df "Close"))
  else if ind = "MA200" then
    setCol df "MA200" (rollingMean 200 (getCol df "Close"))
  else if ind = "MA20" then
    setCol df "MA20" (rollingMean 20 (getCol df "Close"))
  else if ind = "MACD" then setCol df "MACD" (F.macd_diff (getCol df "Close"))
  else if ind = "RSI" then setCol df "RSI" (rsiCol 14 (getCol df "Close"))
  else if ind = "BollingerBands" then
    setCol (setCol (setCol df
          "BB_upper" (F.bb_upper (getCol df "Close")))
        "BB_lower" (F.bb_lower (getCol df "Close")))
      "BB_middle" (F.bb_middle (getCol df "Close"))
  else if ind = "Ichimoku" then
    setCol (setCol (setCol (setCol (setCol df
              "Tenkan_sen" (F.ich_conv (getCol df "High") (getCol df "Low")))
            "Kijun_sen" (F.ich_base (getCol df "High") (getCol df "Low")))
          "Senkou_span_a" (F.ich_a (getCol df "High") (getCol df "Low")))
        "Senkou_span_b" (F.ich_b (getCol df "High") (getCol df "Low")))
      "Chikou_span" (shiftNeg 26 (getCol df "Close"))
  else df

/-- Embeds `add_indicator` (stocks.py lines 90-115): split the requested
names on commas and fold the if/elif chain over them. -/
def add_indicator (F : TaFuns) (df : StockDF) (indicators : String) : StockDF :=
  (splitComma indicators).foldl (apply_indicator F) df

/-- The fixed vocabulary matched by the `add_indicator` if/elif chain. -/
def knownIndicators : List String :=
  ["MA50", "MA200", "MA20", "MACD", "RSI", "BollingerBands", "Ichimoku"]

/-- The five source columns of an OHLCV frame. -/
def ohlcvNames : List String := ["Open", "High", "Low", "Close", "Volume"]

/-- In the source, `add_indicator` assigns columns with `df[name] = ...`,
which mutates the caller's DataFrame object in place, and then returns that
same object. The caller's variable therefore refers to the augmented frame
after the call; this definition is that post-call view. -/
def caller_series_after (F : TaFuns) (df : StockDF) (indicators : String) :
    StockDF :=
  add_indicator F df indicators

/-- Classification of one Ichimoku cloud segment by the plot loop. -/
inductive CloudColor
  | green
  | red
  | neutral

/-- Python `a > b` on float cells: a comparison involving NaN is false. -/
def optGt : Option ℚ → Option ℚ → Bool
  | some x, some y => decide (y < x)
  | _, _ => false

/-- Python `a < b` on float cells: a comparison involving NaN is false. -/
def optLt : Option ℚ → Option ℚ → Bool
  | some x, some y => decide (x < y)
  | _, _ => false

/-- Embeds the cloud-segment conditional of `plot` (stocks.py lines
151-157) for the segment between rows `i-1` and `i`, reading the
`Senkou_span_a` / `Senkou_span_b` columns `a` and `b`: green when span A
exceeds span B at both rows, else red when span A is below span B at both
rows, else no cloud trace is drawn. -/
def cloudSegment (a b : Column) (i : ℕ) : CloudColor :=
  if optGt (a.getD i none) (b.getD i none)
      && optGt (a.getD (i - 1) none) (b.getD (i - 1) none) then .green
  else if optLt (a.getD i none) (b.getD i none)
      && optLt (a.getD (i - 1) none) (b.getD (i - 1) none) then .red
  else .neutral

/-- The persisted cache payload (what `df.to_json` wrote for one symbol). -/
abbrev RawJson := StockDF

/-- The environment of one `create_df(symbol, start_date)` call, for a fixed
symbol: the state of `cache/{symbol}.json`, the two clock reads, and the
external collaborators (yfinance download, json/pandas serialization). -/
structure CacheWorld where
  /-- Content and `os.path.getmtime` of `cache/{symbol}.json`, if the file
  exists. -/
  entry : Option (RawJson × ℚ)
  /-- The `time.time()` reading used by the freshness check, also the
  modification time a cache write leaves behind. -/
  timeNow : ℚ
  /-- The `datetime.now()` reading used as the fetch range end. -/
  dtNow : ℚ
  /-- `yf.download(symbol, start, end)`. -/
  provider : ℚ → ℚ → StockDF
  /-- `json.load` plus DataFrame and date-index reconstruction
  (stocks.py lines 76-78); `none` models an unparseable file
  (`json.JSONDecodeError`). -/
  parse : RawJson → Option StockDF
  /-- `df.to_json(cache_file, date_format='iso')`. -/
  toJson : StockDF → RawJson

/-- Observable outcome of one `create_df` call: the returned frame, the
cache file afterwards (payload and modification time), and the provider
calls made (their `(start, end)` ranges). -/
structure CdfOutcome where
  ret : StockDF
  cache : Option (RawJson × ℚ)
  fetchCalls : List (ℚ × ℚ)

/-- The fetch path of `create_df` (stocks.py lines 82-87): one provider call
for `[start, now]`, overwrite the cache file, return the fetched frame. -/
def fetch_and_cache (w : CacheWorld) (start : ℚ) : CdfOutcome :=
  ⟨w.provider start w.dtNow,
   some (w.toJson (w.provider start w.dtNow), w.timeNow),
   [(start, w.dtNow)]⟩

/-- Embeds `create_df` (stocks.py lines 63-87). If the cache file exists and
`time.time() - getmtime < refresh_interval`, the file is parsed and
returned; `json.load` has no surrounding handler, so a parse failure is an
uncaught `JSONDecodeError`. Otherwise the fetch path runs. -/
def create_df (w : CacheWorld) (start refresh_interval : ℚ) :
    Except String CdfOutcome :=
  match w.entry with
  | some (raw, mtime) =>
    if w.timeNow - mtime < refresh_interval then
      match w.parse raw with
      | some df => .ok ⟨df, some (raw, mtime), []⟩
      | none => .error "JSONDecodeError"
    else .ok (fetch_and_cache w start)
  | none => .ok (fetch_and_cache w start)

/-- Models the cell encoding of `df.to_json` with the pandas default
`double_precision=10`: a float is written with at most 10 decimal places,
i.e. rounded to a multiple of 10⁻¹⁰. -/
def pandasJsonRound (q : ℚ) : ℚ :=
  ((⌊q * 10 ^ 10 + 1 / 2⌋ : ℤ) : ℚ) / 10 ^ 10

/-- Models `df.to_json(..., date_format='iso')` with default
`double_precision=10`: structure and dates survive, every numeric cell is
rounded to 10 decimal places. -/
def pandasToJson (df : StockDF) : RawJson :=
  df.map (fun p => (p.1, p.2.map (Option.map pandasJsonRound)))

/-- Stated from the spec: the trailing mean of `close[max (0, i-(w-1)) .. i]`
(the average over however many rows are available at the start). -/
def specTrailingMean (w : ℕ) (close : List ℚ) (i : ℕ) : ℚ :=
  ((close.take (i + 1)).drop (i + 1 - w)).sum
    / (((close.take (i + 1)).drop (i + 1 - w)).length : ℚ)

/-- Trivial instantiation of the external indicator collaborators, used to
build concrete inputs. -/
def taFunsZero : TaFuns :=
  ⟨fun _ => [], fun _ => [], fun _ => [], fun _ => [],
   fun _ _ => [], fun _ _ => [], fun _ _ => [], fun _ _ => []⟩

/-- A one-row OHLCV frame used as a concrete input. -/
def sampleDF : StockDF :=
  [("Open", [some 1]), ("High", [some 2]), ("Low", [some 1]),
   ("Close", [some 2]), ("Volume", [some 3])]

/-- A concrete 10-row close series. -/
def closesTen : List ℚ := [1, 2, 3, 4, 5, 6, 7, 8, 9, 10]

/-- A concrete frame holding `closesTen`. -/
def dfTen : StockDF := [("Close", closesTen.map some)]

/-- A concrete strictly increasing 15-row close series (long enough for the
14-day RSI warm-up). -/
def closesFifteen : List ℚ :=
  [1, 2, 3, 4, 5, 6, 7, 8, 9, 10, 11, 12, 13, 14, 15]

/-- A concrete frame holding `closesFifteen`. -/
def dfFifteen : StockDF := [("Close", closesFifteen.map some)]

/-- A concrete cached payload. -/
def payload0 : StockDF := [("Close", [some 5])]

/-- A world whose cache file is 100 seconds old (fresh). -/
def freshWorld : CacheWorld :=
  ⟨some (payload0, 900), 1000, 1000, fun _ _ => payload0, some, id⟩

/-- A world with no cache file. -/
def missWorld : CacheWorld :=
  ⟨none, 1000, 1000, fun _ _ => payload0, some, id⟩

/-- A world whose cache file is fresh but unparseable. -/
def corruptWorld : CacheWorld :=
  ⟨some (payload0, 900), 1000, 1000, fun _ _ => payload0, fun _ => none, id⟩

/-- A world with no cache file whose provider returns a close of 10⁻¹¹ and
whose serialization is the pandas JSON round-trip model. -/
def roundWorld0 : CacheWorld :=
  ⟨none, 1000, 1000, fun _ _ => [("Close", [some (1 / 10 ^ 11)])],
   some, pandasToJson⟩

/-- The same world 500 seconds after `roundWorld0`'s call wrote its cache
file (the entry below is exactly the cache `roundWorld0` leaves behind). -/
def roundWorld1 : CacheWorld :=
  ⟨some ([("Close", [some 0])], 1000), 1500, 1500,
   fun _ _ => [("Close", [some (1 / 10 ^ 11)])], some, pandasToJson⟩

/-- Reading back the column just written. -/
theorem getCol_setCol_self (df : StockDF) (name : String) (col : Column) :
    getCol (setCol df name col) name = col := by
  induction df with
  | nil => simp [setCol, getCol]
  | cons p ps ih =>
    by_cases h : p.1 = name
    · simp [setCol, getCol, h]
    · simp [setCol, getCol, h, ih]

/-- Writing one column leaves every other column unchanged. -/
theorem getCol_setCol (df : StockDF) (name other : String) (col : Column) :
    getCol (setCol df name col) other =
      if other = name then col else getCol df other := by
  induction df with
  | nil =>
    by_cases h : other = name
    · simp [setCol, getCol, h]
    · simp [setCol, getCol, h, Ne.symm h]
  | cons p ps ih =>
    by_cases hp : p.1 = name
    · by_cases h : other = name
      · subst h
        simp [setCol, getCol, hp]
      · have hne : p.1 ≠ other := by rw [hp]; exact Ne.symm h
        simp [setCol, getCol, hp, h, Ne.symm h, hne]
    · by_cases hq : p.1 = other
      · have h : ¬other = name := fun hc => hp (hq.trans hc)
        simp [setCol, getCol, hp, hq, h]
      · simp [setCol, getCol, hp, hq, ih]

/-- C1: when a cache file for the symbol exists and the wall-clock time
elapsed since its modification is strictly below the refresh interval
(default 10800 s), `create_df` returns the deserialized cached series, makes
no provider call and leaves the cache file untouched; when no cache file
exists, or the elapsed time has reached the interval, it makes exactly one
provider call for the range from the start date to now, overwrites the
cache entry with the fetched result and a fresh timestamp, and returns the
fetched series. -/
theorem c1_cache_freshness (w : CacheWorld) (start : ℚ) :
    (∀ raw mtime df, w.entry = some (raw, mtime) →
        w.timeNow - mtime < 10800 → w.parse raw = some df →
        create_df w start 10800 = .ok ⟨df, some (raw, mtime), []⟩)
    ∧ (w.entry = none →
        create_df w start 10800 =
          .ok ⟨w.provider start w.dtNow,
            some (w.toJson (w.provider start w.dtNow), w.timeNow),
            [(start, w.dtNow)]⟩)
    ∧ (∀ raw mtime, w.entry = some (raw, mtime) →
        10800 ≤ w.timeNow - mtime →
        create_df w start 10800 =
          .ok ⟨w.provider start w.dtNow,
            some (w.toJson (w.provider start w.dtNow), w.timeNow),
            [(start, w.dtNow)]⟩) := by
  refine ⟨?_, ?_, ?_⟩
  · intro raw mtime df he hf hp
    simp [create_df, he, hf, hp]
  · intro he
    simp [create_df, he, fetch_and_cache]
  · intro raw mtime he hs
    simp [create_df, he, fetch_and_cache, not_lt.mpr hs]

/-- Witness for C1: a fresh 100-second-old cache entry is served without a
fetch; an absent cache file triggers the single fetch-and-overwrite path. -/
theorem c1_cache_freshness_witness :
    create_df freshWorld 0 10800 = .ok ⟨payload0, some (payload0, 900), []⟩
    ∧ create_df missWorld 0 10800 =
        .ok ⟨payload0, some (payload0, 1000), [(0, 1000)]⟩ := by
  constructor
  · exact (c1_cache_freshness freshWorld 0).1 payload0 900 payload0 rfl
      (by norm_num [freshWorld]) rfl
  · exact (c1_cache_freshness missWorld 0).2.1 rfl

/-- C5 (amended): when a fresh cache file exists but cannot be parsed,
`create_df` propagates the parse failure uncaught: no provider fetch
happens, no cache write happens, and the corrupt entry is not recovered. -/
theorem c5_corrupt_cache_raises (w : CacheWorld) (start : ℚ) (raw : RawJson)
    (mtime : ℚ) (he : w.entry = some (raw, mtime))
    (hf : w.timeNow - mtime < 10800) (hp : w.parse raw = none) :
    create_df w start 10800 = .error "JSONDecodeError" := by
  simp [create_df, he, hf, hp]

/-- Witness for C5 (amended) at a concrete corrupt fresh cache entry. -/
theorem c5_corrupt_cache_raises_witness :
    create_df corruptWorld 0 10800 = .error "JSONDecodeError" :=
  c5_corrupt_cache_raises corruptWorld 0 payload0 900 rfl
    (by norm_num [corruptWorld]) rfl

/-- C5 counterexample: on a fresh but unparseable cache entry the call does
not recover by re-fetching — it returns no outcome at all (the
`JSONDecodeError` escapes), refuting the claimed fetch-and-overwrite
recovery. -/
theorem c5_counterexample :
    create_df corruptWorld 0 10800 = .error "JSONDecodeError"
    ∧ ∀ o : CdfOutcome, create_df corruptWorld 0 10800 ≠ .ok o := by
  have h : create_df corruptWorld 0 10800 = .error "JSONDecodeError" := by
    norm_num [create_df, corruptWorld]
  refine ⟨h, fun o ho => ?_⟩
  rw [h] at ho
  exact Except.noConfusion ho

/-- C2 (code bug): the cache write of `create_df` serializes with the
pandas default `double_precision=10`, so a fetched close of 10⁻¹¹ is
persisted as 0 and the fresh cache-hit re-read returns 0 — the write/read
round trip is not floating-point-exact. -/
theorem c2_json_roundtrip_lossy :
    create_df roundWorld0 0 10800 =
      .ok ⟨[("Close", [some (1 / 10 ^ 11)])],
        some ([("Close", [some 0])], 1000), [(0, 1000)]⟩
    ∧ create_df roundWorld1 0 10800 =
      .ok ⟨[("Close", [some 0])], some ([("Close", [some 0])], 1000), []⟩
    ∧ (0 : ℚ) ≠ 1 / 10 ^ 11 := by
  refine ⟨?_, ?_, by norm_num⟩
  · have hr : pandasJsonRound (1 / 100000000000) = 0 := by
      unfold pandasJsonRound
      norm_num
    norm_num [create_df, roundWorld0, fetch_and_cache, pandasToJson, hr]
  · norm_num [create_df, roundWorld1]

/-- Accumulator form of the `get_stocks` loop. -/
theorem foldl_append_map (f : String → String) :
    ∀ (l acc : List String),
      l.foldl (fun a x => a ++ [f x]) acc = acc ++ l.map f := by
  intro l
  induction l with
  | nil => simp
  | cons x xs ih => intro acc; simp [List.foldl, ih]

/-- C9 (amended): `get_stocks` returns the input lines in order, each with
trailing whitespace stripped and then uppercased; a blank input line is not
removed — it contributes an empty-string entry. -/
theorem c9_get_stocks_lines (fileLines : List String) :
    get_stocks fileLines = fileLines.map (fun l => pyUpper (pyRstrip l)) := by
  unfold get_stocks
  simpa using foldl_append_map (fun l => pyUpper (pyRstrip l)) fileLines []

/-- C9 counterexample: a file whose middle line is blank yields three
entries, the middle one the empty string — blank lines are not stripped
out, refuting the claim that a blank line contributes no entry. -/
theorem c9_counterexample :
    get_stocks ["AAPL\n", "\n", "GOOG"] = ["AAPL", "", "GOOG"]
    ∧ "" ∈ get_stocks ["AAPL\n", "\n", "GOOG"]
    ∧ (get_stocks ["AAPL\n", "\n", "GOOG"]).length = 3 := by
  refine ⟨by decide, by decide, by decide⟩

/-- A name outside the fixed vocabulary falls through every branch of the
if/elif chain and leaves the frame unchanged. -/
theorem apply_indicator_unknown (F : TaFuns) (df : StockDF) (ind : String)
    (h : ind ∉ knownIndicators) : apply_indicator F df ind = df := by
  simp only [knownIndicators, List.mem_cons, List.not_mem_nil, or_false,
    not_or] at h
  obtain ⟨h1, h2, h3, h4, h5, h6, h7⟩ := h
  simp [apply_indicator, h1, h2, h3, h4, h5, h6, h7]

/-- C6: a requested indicator name outside the vocabulary {MA20, MA50,
MA200, MACD, RSI, BollingerBands, Ichimoku} raises no error and adds no
column — the fold step is the identity on the frame — and in particular
requesting "FOO,MA50" produces exactly the frame that requesting "MA50"
alone produces. -/
theorem c6_unknown_indicator_ignored :
    (∀ (F : TaFuns) (df : StockDF) (ind : String), ind ∉ knownIndicators →
        apply_indicator F df ind = df)
    ∧ ∀ (F : TaFuns) (df : StockDF),
        add_indicator F df "FOO,MA50" = add_indicator F df "MA50" := by
  refine ⟨fun F df ind h => apply_indicator_unknown F df ind h, fun F df => ?_⟩
  show apply_indicator F (apply_indicator F df "FOO") "MA50" =
    apply_indicator F df "MA50"
  rw [apply_indicator_unknown F df "FOO" (by decide)]

/-- Witness for C6 at a concrete frame and the unknown name "FOO". -/
theorem c6_unknown_indicator_ignored_witness :
    apply_indicator taFunsZero sampleDF "FOO" = sampleDF
    ∧ add_indicator taFunsZero sampleDF "FOO,MA50" =
        add_indicator taFunsZero sampleDF "MA50" :=
  ⟨c6_unknown_indicator_ignored.1 taFunsZero sampleDF "FOO" (by decide),
   c6_unknown_indicator_ignored.2 taFunsZero sampleDF⟩

/-- One fold step of `add_indicator` never changes an OHLCV source column:
every branch assigns only indicator-named columns. -/
theorem getCol_apply_indicator (F : TaFuns) (df : StockDF) (ind : String)
    (c : String) (hc : c ∈ ohlcvNames) :
    getCol (apply_indicator F df ind) c = getCol df c := by
  simp only [ohlcvNames, List.mem_cons, List.not_mem_nil, or_false] at hc
  unfold apply_indicator
  rcases hc with rfl | rfl | rfl | rfl | rfl <;>
    split_ifs <;> simp [getCol_setCol]

/-- C7 (amended): `add_indicator` augments the series in place — the
returned frame (which, by the in-place pandas column assignment, is the
caller's own object) keeps every one of the five OHLCV source columns with
its original values; the indicator columns are added alongside them. -/
theorem c7_ohlcv_preserved (F : TaFuns) (df : StockDF) (indicators : String)
    (c : String) (hc : c ∈ ohlcvNames) :
    getCol (add_indicator F df indicators) c = getCol df c := by
  unfold add_indicator
  generalize splitComma indicators = l
  induction l generalizing df with
  | nil => rfl
  | cons x xs ih =>
    simp only [List.foldl]
    rw [ih (apply_indicator F df x), getCol_apply_indicator F df x c hc]

/-- Witness for C7 (amended) at a concrete frame. -/
theorem c7_ohlcv_preserved_witness :
    getCol (add_indicator taFunsZero sampleDF "MA50") "Close" =
      getCol sampleDF "Close" :=
  c7_ohlcv_preserved taFunsZero sampleDF "MA50" "Close" (by decide)

/-- C7 counterexample: after `add_indicator(df, "MA50")` the caller's frame
(the very object the function mutated and returned) is not the original
five-column frame — it has gained the MA50 column — refuting the claim that
the input series is left with exactly its original columns. -/
theorem c7_counterexample :
    caller_series_after taFunsZero sampleDF "MA50" ≠ sampleDF := by
  intro he
  have h6 : (caller_series_after taFunsZero sampleDF "MA50").length = 6 := rfl
  rw [he] at h6
  exact absurd h6 (by decide)

/-- A comparison whose left cell is missing is false. -/
theorem optGt_none_left (y : Option ℚ) : optGt none y = false := by
  cases y <;> rfl

/-- A comparison whose right cell is missing is false. -/
theorem optGt_none_right (x : Option ℚ) : optGt x none = false := by
  cases x <;> rfl

/-- A comparison whose left cell is missing is false. -/
theorem optLt_none_left (y : Option ℚ) : optLt none y = false := by
  cases y <;> rfl

/-- A comparison whose right cell is missing is false. -/
theorem optLt_none_right (x : Option ℚ) : optLt x none = false := by
  cases x <;> rfl

/-- On a segment whose four span cells are all defined, the cloud
conditional reduces to the two strict comparisons. -/
theorem cloudSegment_defined (a b : Column) (i : ℕ) (a0 a1 b0 b1 : ℚ)
    (ha1 : a.getD i none = some a1) (hb1 : b.getD i none = some b1)
    (ha0 : a.getD (i - 1) none = some a0) (hb0 : b.getD (i - 1) none = some b0) :
    cloudSegment a b i =
      if b1 < a1 ∧ b0 < a0 then CloudColor.green
      else if a1 < b1 ∧ a0 < b0 then CloudColor.red
      else CloudColor.neutral := by
  unfold cloudSegment
  rw [ha1, hb1, ha0, hb0]
  simp [optGt, optLt, Bool.and_eq_true, decide_eq_true_eq]

/-- C4: with Ichimoku spans computed, the segment between adjacent rows
`(i-1, i)` is classified as a green (bullish) cloud iff span A strictly
exceeds span B at both rows, as a red (bearish) cloud iff span A is
strictly below span B at both rows, and as neither color in every other
case — in particular whenever the relation differs between the two rows. -/
theorem c4_cloud_classification (a b : Column) (i : ℕ) (a0 a1 b0 b1 : ℚ)
    (ha1 : a.getD i none = some a1) (hb1 : b.getD i none = some b1)
    (ha0 : a.getD (i - 1) none = some a0) (hb0 : b.getD (i - 1) none = some b0) :
    (cloudSegment a b i = CloudColor.green ↔ (b1 < a1 ∧ b0 < a0))
    ∧ (cloudSegment a b i = CloudColor.red ↔ (a1 < b1 ∧ a0 < b0))
    ∧ (¬(b1 < a1 ∧ b0 < a0) → ¬(a1 < b1 ∧ a0 < b0) →
        cloudSegment a b i = CloudColor.neutral) := by
  rw [cloudSegment_defined a b i a0 a1 b0 b1 ha1 hb1 ha0 hb0]
  by_cases h1 : b1 < a1 ∧ b0 < a0 <;> by_cases h2 : a1 < b1 ∧ a0 < b0
  · exact absurd h2.1 (lt_asymm h1.1)
  · simp [h1, h2]
  · simp [h1, h2]
  · simp [h1, h2]

/-- Witness for C4 at concrete spans: A = (1, 3) above B = (0, 2) on both
rows of the segment ending at row 1. -/
theorem c4_cloud_classification_witness :
    (cloudSegment [some 1, some 3] [some 0, some 2] 1 = CloudColor.green ↔
      ((2 : ℚ) < 3 ∧ (0 : ℚ) < 1))
    ∧ (cloudSegment [some 1, some 3] [some 0, some 2] 1 = CloudColor.red ↔
      ((3 : ℚ) < 2 ∧ (1 : ℚ) < 0))
    ∧ (¬((2 : ℚ) < 3 ∧ (0 : ℚ) < 1) → ¬((3 : ℚ) < 2 ∧ (1 : ℚ) < 0) →
        cloudSegment [some 1, some 3] [some 0, some 2] 1 =
          CloudColor.neutral) :=
  c4_cloud_classification [some 1, some 3] [some 0, some 2] 1 1 3 0 2
    rfl rfl rfl rfl

/-- C10: both cloud tests use strict inequalities at both rows, and a
comparison against a missing (NaN) cell is false, so an exact tie of the
spans at either row, or an undefined span cell at either row, always
classifies the segment as neither bullish nor bearish. -/
theorem c10_tie_or_undefined_neutral (a b : Column) (i : ℕ) :
    (∀ v : ℚ, a.getD i none = some v → b.getD i none = some v →
        cloudSegment a b i = CloudColor.neutral)
    ∧ (∀ v : ℚ, a.getD (i - 1) none = some v → b.getD (i - 1) none = some v →
        cloudSegment a b i = CloudColor.neutral)
    ∧ (a.getD i none = none → cloudSegment a b i = CloudColor.neutral)
    ∧ (b.getD i none = none → cloudSegment a b i = CloudColor.neutral)
    ∧ (a.getD (i - 1) none = none → cloudSegment a b i = CloudColor.neutral)
    ∧ (b.getD (i - 1) none = none → cloudSegment a b i = CloudColor.neutral) := by
  refine ⟨?_, ?_, ?_, ?_, ?_, ?_⟩
  · intro v h1 h2
    unfold cloudSegment
    rw [h1, h2]
    simp [optGt, optLt, lt_irrefl]
  · intro v h1 h2
    unfold cloudSegment
    rw [h1, h2]
    simp [optGt, optLt, lt_irrefl]
  · intro h
    unfold cloudSegment
    rw [h]
    simp [optGt_none_left, optLt_none_left]
  · intro h
    unfold cloudSegment
    rw [h]
    simp [optGt_none_right, optLt_none_right]
  · intro h
    unfold cloudSegment
    rw [h]
    simp [optGt_none_left, optLt_none_left]
  · intro h
    unfold cloudSegment
    rw [h]
    simp [optGt_none_right, optLt_none_right]

/-- Witness for C10: an exact tie of the spans classifies as neutral. -/
theorem c10_tie_or_undefined_neutral_witness :
    cloudSegment [some 1] [some 1] 0 = CloudColor.neutral :=
  (c10_tie_or_undefined_neutral [some 1] [some 1] 0).1 1 rfl rfl

/-- Filtering the defined cells of a fully defined column recovers the
underlying values. -/
theorem filterMap_id_map_some (l : List ℚ) : (l.map some).filterMap id = l := by
  induction l with
  | nil => rfl
  | cons x xs ih => simp [ih]

/-- The trailing window of a fully defined column. -/
theorem windowAt_map_some (w i : ℕ) (close : List ℚ) :
    windowAt w i (close.map some) =
      ((close.take (i + 1)).drop (i + 1 - w)).map some := by
  simp [windowAt, List.map_take, List.map_drop]

/-- On a fully defined column, the `min_periods=0` rolling mean cell is the
spec's trailing mean. -/
theorem rollingMeanAt_map_some (w i : ℕ) (hw : 0 < w) (close : List ℚ)
    (hi : i < close.length) :
    rollingMeanAt w i (close.map some) = some (specTrailingMean w close i) := by
  have hwin : (windowAt w i (close.map some)).filterMap id
      = (close.take (i + 1)).drop (i + 1 - w) := by
    rw [windowAt_map_some, filterMap_id_map_some]
  have hlen : ((close.take (i + 1)).drop (i + 1 - w)).length ≠ 0 := by
    rw [List.length_drop, List.length_take,
      Nat.min_eq_left (by omega : i + 1 ≤ close.length)]
    omega
  rw [rollingMeanAt, hwin, if_neg hlen]
  rfl

/-- Indexing the per-row construction of a column. -/
theorem getD_range_map (f : ℕ → Option ℚ) (n i : ℕ) (hi : i < n) :
    ((List.range n).map f).getD i none = f i := by
  simp [List.getD_eq_getElem?_getD, List.getElem?_map, List.getElem?_range hi]

/-- On a fully defined column, every cell of the rolling mean is the spec's
trailing mean. -/
theorem rollingMean_map_some (w : ℕ) (hw : 0 < w) (close : List ℚ) (i : ℕ)
    (hi : i < close.length) :
    (rollingMean w (close.map some)).getD i none =
      some (specTrailingMean w close i) := by
  rw [rollingMean, List.length_map]
  rw [getD_range_map _ _ _ hi]
  exact rollingMeanAt_map_some w i hw close hi

/-- C3: each MA column cell at row `i` is the arithmetic mean of the close
values at rows `max (0, i-(w-1))` through `i` (trailing window truncated at
the start of the series, no leading undefined run and no zero padding), for
windows 50, 20 and 200; on a 10-row series every MA50 cell is defined and
equals the mean of `close[0..i]`. -/
theorem c3_ma_trailing_mean (F : TaFuns) (df : StockDF) (close : List ℚ)
    (hc : getCol df "Close" = close.map some) :
    (∀ i, i < close.length →
        (getCol (add_indicator F df "MA50") "MA50").getD i none
          = some (specTrailingMean 50 close i)
        ∧ (getCol (add_indicator F df "MA20") "MA20").getD i none
          = some (specTrailingMean 20 close i)
        ∧ (getCol (add_indicator F df "MA200") "MA200").getD i none
          = some (specTrailingMean 200 close i))
    ∧ (close.length = 10 → ∀ i, i < 10 →
        (getCol (add_indicator F df "MA50") "MA50").getD i none
          = some ((close.take (i + 1)).sum / ((i + 1 : ℕ) : ℚ))) := by
  have e50 : getCol (add_indicator F df "MA50") "MA50"
      = rollingMean 50 (getCol df "Close") := by
    rw [show add_indicator F df "MA50"
        = setCol df "MA50" (rollingMean 50 (getCol df "Close")) from rfl]
    exact getCol_setCol_self df "MA50" _
  have e20 : getCol (add_indicator F df "MA20") "MA20"
      = rollingMean 20 (getCol df "Close") := by
    rw [show add_indicator F df "MA20"
        = setCol df "MA20" (rollingMean 20 (getCol df "Close")) from rfl]
    exact getCol_setCol_self df "MA20" _
  have e200 : getCol (add_indicator F df "MA200") "MA200"
      = rollingMean 200 (getCol df "Close") := by
    rw [show add_indicator F df "MA200"
        = setCol df "MA200" (rollingMean 200 (getCol df "Close")) from rfl]
    exact getCol_setCol_self df "MA200" _
  constructor
  · intro i hi
    rw [e50, e20, e200, hc]
    exact ⟨rollingMean_map_some 50 (by norm_num) close i hi,
      rollingMean_map_some 20 (by norm_num) close i hi,
      rollingMean_map_some 200 (by norm_num) close i hi⟩
  · intro hlen i hi
    rw [e50, hc]
    rw [rollingMean_map_some 50 (by norm_num) close i (by omega)]
    have hdrop : i + 1 - 50 = 0 := by omega
    have htake : ((close.take (i + 1)).length : ℚ) = ((i + 1 : ℕ) : ℚ) := by
      rw [List.length_take]
      congr 1
      omega
    rw [specTrailingMean, hdrop, List.drop_zero, htake]

/-- Witness for C3 on the concrete 10-row close series 1..10. -/
theorem c3_ma_trailing_mean_witness :
    (getCol (add_indicator taFunsZero dfTen "MA50") "MA50").getD 3 none
      = some (specTrailingMean 50 closesTen 3)
    ∧ (getCol (add_indicator taFunsZero dfTen "MA50") "MA50").getD 9 none
      = some ((closesTen.take 10).sum / ((10 : ℕ) : ℚ)) := by
  constructor
  · exact ((c3_ma_trailing_mean taFunsZero dfTen closesTen rfl).1 3
      (by decide)).1
  · exact (c3_ma_trailing_mean taFunsZero dfTen closesTen rfl).2
      (by decide) 9 (by decide)

/-- The ewm recursion keeps nonnegative inputs nonnegative (the smoothing
factor is a convex weight). -/
theorem ewmFrom_nonneg (a : ℚ) (h0 : 0 ≤ a) (h1 : a ≤ 1) :
    ∀ (l : List ℚ) (acc : ℚ), 0 ≤ acc → (∀ x ∈ l, 0 ≤ x) →
      ∀ y ∈ ewmFrom a acc l, 0 ≤ y := by
  intro l
  induction l with
  | nil =>
    intro acc _ _ y hy
    simp [ewmFrom] at hy
  | cons x xs ih =>
    intro acc hacc hl y hy
    have hx : 0 ≤ x := hl x (by simp)
    have hstep : 0 ≤ (1 - a) * acc + a * x := by
      have hm1 := mul_nonneg (by linarith : (0 : ℚ) ≤ 1 - a) hacc
      have hm2 := mul_nonneg h0 hx
      linarith
    rw [ewmFrom] at hy
    rcases List.mem_cons.mp hy with h | h
    · exact h ▸ hstep
    · exact ih ((1 - a) * acc + a * x) hstep
        (fun z hz => hl z (by simp [hz])) y h

/-- `ewm(adjust=False).mean()` of a nonnegative series is nonnegative. -/
theorem ewmAdjFalse_nonneg (a : ℚ) (h0 : 0 ≤ a) (h1 : a ≤ 1) (l : List ℚ)
    (hl : ∀ x ∈ l, 0 ≤ x) : ∀ y ∈ ewmAdjFalse a l, 0 ≤ y := by
  cases l with
  | nil =>
    intro y hy
    simp [ewmAdjFalse] at hy
  | cons x xs =>
    intro y hy
    rw [ewmAdjFalse] at hy
    rcases List.mem_cons.mp hy with h | h
    · exact h ▸ hl x (by simp)
    · exact ewmFrom_nonneg a h0 h1 xs x (hl x (by simp))
        (fun z hz => hl z (by simp [hz])) y h

/-- The RSI cell formula stays within [0, 100] on nonnegative smoothed
gains and losses. -/
theorem rsiVal_bounds (up dn : ℚ) (hu : 0 ≤ up) (hd : 0 ≤ dn) :
    0 ≤ rsiVal up dn ∧ rsiVal up dn ≤ 100 := by
  unfold rsiVal
  split_ifs with h
  · norm_num
  · have hdn : 0 < dn := lt_of_le_of_ne hd (Ne.symm h)
    have hq : 0 ≤ up / dn := div_nonneg hu hd
    have hpos : (0 : ℚ) < 1 + up / dn := by linarith
    have h2 : 100 / (1 + up / dn) ≤ 100 := by
      apply div_le_self (by norm_num) (by linarith)
    have h3 : 0 < 100 / (1 + up / dn) := by positivity
    constructor <;> linarith

/-- A defined cell of the warm-up mask carries a value of the masked list. -/
theorem mem_maskN (v : ℚ) : ∀ (k : ℕ) (l : List ℚ),
    some v ∈ maskN k l → v ∈ l := by
  intro k l
  induction l generalizing k with
  | nil =>
    intro h
    cases k <;> simp [maskN] at h
  | cons x xs ih =>
    intro h
    cases k with
    | zero =>
      rw [maskN] at h
      rcases List.mem_cons.mp h with h | h
      · simp only [Option.some.injEq] at h
        simp [h]
      · simp [ih 0 h]
    | succ k =>
      rw [maskN] at h
      rcases List.mem_cons.mp h with h | h
      · exact absurd h (by simp)
      · simp [ih k h]

/-- Every value assembled by zipping the RSI formula over nonnegative
smoothed gains and losses lies in [0, 100]. -/
theorem zipWith_rsiVal_bounds (v : ℚ) :
    ∀ l1 l2 : List ℚ, v ∈ List.zipWith rsiVal l1 l2 →
      (∀ x ∈ l1, 0 ≤ x) → (∀ x ∈ l2, 0 ≤ x) → 0 ≤ v ∧ v ≤ 100 := by
  intro l1
  induction l1 with
  | nil =>
    intro l2 h _ _
    simp at h
  | cons x xs ih =>
    intro l2 h h1 h2
    cases l2 with
    | nil => simp at h
    | cons y ys =>
      rw [List.zipWith_cons_cons] at h
      rcases List.mem_cons.mp h with h | h
      · exact h ▸ rsiVal_bounds x y (h1 x (by simp)) (h2 y (by simp))
      · exact ih ys h (fun z hz => h1 z (by simp [hz]))
          (fun z hz => h2 z (by simp [hz]))

/-- The clipped positive one-day moves are nonnegative. -/
theorem clipUp_nonneg (d : Option ℚ) : 0 ≤ clipUp d := by
  cases d with
  | none => simp [clipUp]
  | some x =>
    simp only [clipUp]
    split_ifs with h
    · linarith
    · linarith

/-- The clipped negative one-day moves are nonnegative. -/
theorem clipDown_nonneg (d : Option ℚ) : 0 ≤ clipDown d := by
  cases d with
  | none => simp [clipDown]
  | some x =>
    simp only [clipDown]
    split_ifs with h
    · linarith
    · linarith

/-- Every defined cell of the modelled `ta.momentum.rsi` output lies in
[0, 100]. -/
theorem rsiCol_bounds (w : ℕ) (hw : 1 ≤ w) (c : Column) (v : ℚ)
    (hv : some v ∈ rsiCol w c) : 0 ≤ v ∧ v ≤ 100 := by
  unfold rsiCol at hv
  have hm := mem_maskN v _ _ hv
  have ha0 : (0 : ℚ) ≤ 1 / (w : ℚ) := by positivity
  have ha1 : (1 : ℚ) / (w : ℚ) ≤ 1 := by
    have hwq : (1 : ℚ) ≤ (w : ℚ) := by exact_mod_cast hw
    rw [div_le_one (by linarith)]
    exact hwq
  have hup : ∀ x ∈ (diffs c).map clipUp, 0 ≤ x := by
    intro x hx
    rcases List.mem_map.mp hx with ⟨d, _, rfl⟩
    exact clipUp_nonneg d
  have hdn : ∀ x ∈ (diffs c).map clipDown, 0 ≤ x := by
    intro x hx
    rcases List.mem_map.mp hx with ⟨d, _, rfl⟩
    exact clipDown_nonneg d
  exact zipWith_rsiVal_bounds v _ _ hm
    (ewmAdjFalse_nonneg _ ha0 ha1 _ hup)
    (ewmAdjFalse_nonneg _ ha0 ha1 _ hdn)

/-- C8: every defined cell of the RSI column that `add_indicator` computes
(14-day window over close) lies in the closed interval [0, 100]. -/
theorem c8_rsi_bounded (F : TaFuns) (df : StockDF) (v : ℚ)
    (hv : some v ∈ getCol (add_indicator F df "RSI") "RSI") :
    0 ≤ v ∧ v ≤ 100 := by
  have he : getCol (add_indicator F df "RSI") "RSI"
      = rsiCol 14 (getCol df "Close") := by
    rw [show add_indicator F df "RSI"
        = setCol df "RSI" (rsiCol 14 (getCol df "Close")) from rfl]
    exact getCol_setCol_self df "RSI" _
  rw [he] at hv
  exact rsiCol_bounds 14 (by norm_num) _ v hv

/-- Witness for C8: on the strictly increasing 15-row close series the RSI
column holds a defined cell of value 100, which the bound theorem places in
[0, 100]. -/
theorem c8_rsi_bounded_witness :
    some (100 : ℚ) ∈ getCol (add_indicator taFunsZero dfFifteen "RSI") "RSI"
    ∧ (0 : ℚ) ≤ 100 ∧ (100 : ℚ) ≤ 100 := by
  have hv : some (100 : ℚ) ∈
      getCol (add_indicator taFunsZero dfFifteen "RSI") "RSI" := by
    rw [show add_indicator taFunsZero dfFifteen "RSI"
        = setCol dfFifteen "RSI" (rsiCol 14 (getCol dfFifteen "Close"))
        from rfl]
    rw [getCol_setCol_self]
    rw [show getCol dfFifteen "Close" = closesFifteen.map some from rfl]
    norm_num [rsiCol, diffs, closesFifteen, clipUp, clipDown, ewmAdjFalse,
      ewmFrom, rsiVal, maskN]
  exact ⟨hv, c8_rsi_bounded taFunsZero dfFifteen 100 hv⟩
